import Mathlib

/-
Verification of the IPTS response-handling state machine (src/receiver.c).

The C functions are embedded as pure Lean functions over an explicit driver
context (`IptsContext`).  Side effects — commands sent to the sensor,
collaborator calls (resource manager, HID layer, control start/stop/restart),
sleeps and log lines — are recorded in an effect trace (`List Effect`).
Return codes of the external collaborators are supplied by an environment
record (`Env`), so that every branch of the C code is reachable in the model.
Machine integers: the doorbell register is a u32, modelled as a Nat reduced
mod 2 ^ 32 at the single place the source writes it.
-/

/-- Response status codes (from the protocol header; the names used by
receiver.c).  All status values not distinguished by receiver.c are
collected in `other`, carrying the raw u32. -/
inductive IptsStatus where
  | success
  | invalid_params
  | sensor_disabled
  | compat_check_fail
  | sensor_expected_reset
  | sensor_unexpected_reset
  | other (raw : Nat)
deriving DecidableEq, Repr

/-- Response opcodes (rsp->code).  Opcodes receiver.c does not branch on are
collected in `other`, carrying the raw u32. -/
inductive IptsRsp where
  | get_device_info
  | set_mode
  | set_mem_window
  | ready_for_data
  | feedback
  | reset_sensor
  | other (raw : Nat)
deriving DecidableEq, Repr

/-- Host status values referenced by receiver.c. -/
inductive IptsHostStatus where
  | stopped
  | stopping
  | starting
  | started
deriving DecidableEq, Repr

/-- Sensor operating mode. -/
inductive IptsMode where
  | singletouch
  | multitouch
deriving DecidableEq, Repr

/-- One response frame: opcode, status and an opaque payload blob
(only the device-info handler copies it, so a Nat stands for the bytes). -/
structure IptsResponse where
  code : IptsRsp
  status : IptsStatus
  payload : Nat
deriving DecidableEq, Repr

/-- The long-lived driver context fields receiver.c touches. -/
structure IptsContext where
  status : IptsHostStatus
  mode : IptsMode
  device_info : Nat
  restart : Bool
  doorbell : Nat
  on_device_ready : Bool
deriving DecidableEq, Repr

/-- Observable side effects of receiver.c, in program order. -/
inductive Effect where
  | setStatus (s : IptsHostStatus)
  | cmdSetMode (m : IptsMode)
  | cmdSetMemWindow
  | cmdReadyForData
  | resourcesAlloc
  | resourcesFree
  | hidInit
  | hidFree
  | completeAll
  | msleep (ms : Nat)
  | controlStart
  | controlStop
  | controlRestart
  | recvFrame
  | logErr
  | logInfo
deriving DecidableEq, Repr

/-- Return codes of the external collaborators (0 = success, as in C). -/
structure Env where
  resources_alloc_ret : Int
  cmd_set_mode_ret : Int
  cmd_set_mem_window_ret : Int
  cmd_ready_for_data_ret : Int
  control_start_ret : Int
  control_stop_ret : Int
  control_restart_ret : Int
  recv_ret : Int
deriving DecidableEq, Repr

/-- Embedding of `ipts_receiver_handle_get_device_info` (receiver.c:22-28):
copies the payload into the context, then issues the set-mode command with
the configured mode and returns that call's result. -/
def ipts_receiver_handle_get_device_info (env : Env) (ipts : IptsContext)
    (rsp : IptsResponse) : Int × IptsContext × List Effect :=
  let ipts := { ipts with device_info := rsp.payload }
  (env.cmd_set_mode_ret, ipts, [.cmdSetMode ipts.mode])

/-- Embedding of `ipts_receiver_handle_set_mode` (receiver.c:30-43):
allocates resources; on failure logs and returns the error, otherwise issues
the set-mem-window command and returns its result. -/
def ipts_receiver_handle_set_mode (env : Env) (ipts : IptsContext) :
    Int × IptsContext × List Effect :=
  if env.resources_alloc_ret ≠ 0 then
    (env.resources_alloc_ret, ipts, [.resourcesAlloc, .logErr])
  else
    (env.cmd_set_mem_window_ret, ipts, [.resourcesAlloc, .cmdSetMemWindow])

/-- Embedding of `ipts_receiver_handle_set_mem_window` (receiver.c:45-58):
sets host status to STARTED, initializes the HID device, signals the
readiness completion, then issues ready-for-data and returns its result. -/
def ipts_receiver_handle_set_mem_window (env : Env) (ipts : IptsContext) :
    Int × IptsContext × List Effect :=
  let ipts := { ipts with status := .started, on_device_ready := true }
  (env.cmd_ready_for_data_ret, ipts,
    [.setStatus .started, .hidInit, .completeAll, .cmdReadyForData])

/-- Embedding of `ipts_receiver_handle_ready_for_data` (receiver.c:60-70):
no-op returning 0 unless the mode is singletouch, in which case the u32
doorbell register is incremented (wrapping mod 2^32). -/
def ipts_receiver_handle_ready_for_data (ipts : IptsContext) :
    Int × IptsContext × List Effect :=
  if ipts.mode ≠ .singletouch then
    (0, ipts, [])
  else
    (0, { ipts with doorbell := (ipts.doorbell + 1) % 2 ^ 32 }, [])

/-- Embedding of `ipts_receiver_handle_feedback` (receiver.c:72-81):
in singletouch mode re-issues ready-for-data and returns its result,
otherwise returns 0. -/
def ipts_receiver_handle_feedback (env : Env) (ipts : IptsContext)
    (rsp : IptsResponse) : Int × IptsContext × List Effect :=
  if ipts.mode = .singletouch then
    (env.cmd_ready_for_data_ret, ipts, [.cmdReadyForData])
  else
    (0, ipts, [])

/-- Embedding of `ipts_receiver_handle_reset` (receiver.c:83-99):
sets host status to STOPPED first; if the restart flag is set, sleeps 1000ms
and returns the result of control_start; otherwise frees resources, frees
the HID device and returns 0. -/
def ipts_receiver_handle_reset (env : Env) (ipts : IptsContext) :
    Int × IptsContext × List Effect :=
  let ipts := { ipts with status := .stopped }
  if ipts.restart then
    (env.control_start_ret, ipts, [.setStatus .stopped, .msleep 1000, .controlStart])
  else
    (0, ipts, [.setStatus .stopped, .resourcesFree, .hidFree])

/-- Embedding of `ipts_receiver_handle_error` (receiver.c:101-130): the pure
classification switch, plus the error log line emitted when it classifies
the response as an error. -/
def ipts_receiver_handle_error (ipts : IptsContext) (rsp : IptsResponse) :
    Bool × List Effect :=
  let error : Bool :=
    match rsp.status with
    | .success => false
    | .compat_check_fail => false
    | .invalid_params => rsp.code ≠ IptsRsp.feedback
    | .sensor_disabled => ipts.status ≠ IptsHostStatus.stopping
    | .sensor_expected_reset => ipts.status ≠ IptsHostStatus.stopping
    | _ => true
  if !error then
    (false, [])
  else
    (true, [.logErr])

/-- Embedding of `ipts_receiver_handle_response` (receiver.c:132-182): the
dispatcher.  Unsolicited sensor reset short-circuits to control_restart
(logging a failure); otherwise the classifier may abort dispatch; otherwise
the opcode is routed to its handler (unknown opcodes are a 0-returning
no-op); a nonzero handler result is logged and triggers control_stop
(whose own failure is logged). -/
def ipts_receiver_handle_response (env : Env) (ipts : IptsContext)
    (rsp : IptsResponse) : IptsContext × List Effect :=
  if rsp.status = .sensor_unexpected_reset then
    (ipts, [.logInfo, .controlRestart] ++
      (if env.control_restart_ret ≠ 0 then [.logErr] else []))
  else
    let cls := ipts_receiver_handle_error ipts rsp
    if cls.1 then
      (ipts, cls.2)
    else
      let r : Int × IptsContext × List Effect :=
        match rsp.code with
        | .get_device_info => ipts_receiver_handle_get_device_info env ipts rsp
        | .set_mode => ipts_receiver_handle_set_mode env ipts
        | .set_mem_window => ipts_receiver_handle_set_mem_window env ipts
        | .ready_for_data => ipts_receiver_handle_ready_for_data ipts
        | .feedback => ipts_receiver_handle_feedback env ipts rsp
        | .reset_sensor => ipts_receiver_handle_reset env ipts
        | .other _ => (0, ipts, [])
      if r.1 = 0 then
        (r.2.1, r.2.2)
      else
        (r.2.1, r.2.2 ++ [.logErr, .controlStop] ++
          (if env.control_stop_ret ≠ 0 then [.logErr] else []))

/-- Embedding of `ipts_receiver_callback` (receiver.c:184-203): returns
immediately when host status is STOPPED; otherwise reads one frame (a
non-positive read result is logged and dropped) and dispatches it. -/
def ipts_receiver_callback (env : Env) (ipts : IptsContext)
    (rsp : IptsResponse) : IptsContext × List Effect :=
  if ipts.status = .stopped then
    (ipts, [])
  else if env.recv_ret ≤ 0 then
    (ipts, [.recvFrame, .logErr])
  else
    let r := ipts_receiver_handle_response env ipts rsp
    (r.1, .recvFrame :: r.2)

/-- Dispatching a list of responses in order (used for the sequence-shaped
claims; each response goes through the full dispatcher). -/
def ipts_receiver_dispatch_list (env : Env) (ipts : IptsContext) :
    List IptsResponse → IptsContext × List Effect
  | [] => (ipts, [])
  | rsp :: rest =>
    let r1 := ipts_receiver_handle_response env ipts rsp
    let r2 := ipts_receiver_dispatch_list env r1.1 rest
    (r2.1, r1.2 ++ r2.2)

/-- Number of occurrences of one effect in a trace. -/
def countEff (e : Effect) : List Effect → Nat
  | [] => 0
  | x :: xs => (if x = e then 1 else 0) + countEff e xs

/-- Whether an effect is a command issued to the sensor. -/
def isCmdEffect : Effect → Bool
  | .cmdSetMode _ => true
  | .cmdSetMemWindow => true
  | .cmdReadyForData => true
  | _ => false

/-- Number of commands issued to the sensor in a trace. -/
def countCmds : List Effect → Nat
  | [] => 0
  | x :: xs => (if isCmdEffect x then 1 else 0) + countCmds xs

/-- The spec's Error Classifier decision table (section 4.3), written from
the spec's words: Success and Compatibility-check-failed are never errors;
Invalid-parameters is an error unless the opcode is Feedback;
Sensor-disabled and Sensor-expected-reset are errors unless the host status
is Stopping; every other status is an error. -/
def spec_is_error (status : IptsStatus) (code : IptsRsp)
    (host : IptsHostStatus) : Bool :=
  match status with
  | .success => false
  | .compat_check_fail => false
  | .invalid_params => code ≠ IptsRsp.feedback
  | .sensor_disabled => host ≠ IptsHostStatus.stopping
  | .sensor_expected_reset => host ≠ IptsHostStatus.stopping
  | _ => true

/-- C1: for every response status, opcode and host status, the error
classifier `ipts_receiver_handle_error` returns exactly the value of the
spec's decision table `spec_is_error`: Success and Compatibility-check-failed
are never errors; Invalid-parameters is an error iff the opcode is not
Feedback; Sensor-disabled and Sensor-expected-reset are errors iff the host
status is not Stopping; every other status is an error. -/
theorem C1_error_classifier_matches_spec_table (ipts : IptsContext)
    (rsp : IptsResponse) :
    (ipts_receiver_handle_error ipts rsp).1 =
      spec_is_error rsp.status rsp.code ipts.status := by
  rcases rsp with ⟨code, status, payload⟩
  cases status <;>
    simp [ipts_receiver_handle_error, spec_is_error] <;>
    split <;> simp_all

/-- C2: a response whose status is sensor-unexpected-reset short-circuits
dispatch: the context is untouched and the only effects are the log line,
the control_restart invocation and (on restart failure) an error log —
in particular no classifier log and no handler effect occurs. -/
theorem C2_unsolicited_reset_short_circuits (env : Env) (ipts : IptsContext)
    (rsp : IptsResponse) (h : rsp.status = IptsStatus.sensor_unexpected_reset) :
    ipts_receiver_handle_response env ipts rsp =
      (ipts, [.logInfo, .controlRestart] ++
        (if env.control_restart_ret ≠ 0 then [Effect.logErr] else [])) := by
  simp [ipts_receiver_handle_response, h]

/-- Witness for C2 at a concrete response and context. -/
theorem C2_unsolicited_reset_short_circuits_witness :
    ipts_receiver_handle_response
      ⟨0, 0, 0, 0, 0, 0, 0, 1⟩
      ⟨.started, .multitouch, 0, false, 0, false⟩
      ⟨.set_mode, .sensor_unexpected_reset, 0⟩ =
      (⟨.started, .multitouch, 0, false, 0, false⟩,
        [.logInfo, .controlRestart] ++
          (if (0 : Int) ≠ 0 then [Effect.logErr] else [])) :=
  C2_unsolicited_reset_short_circuits
    ⟨0, 0, 0, 0, 0, 0, 0, 1⟩
    ⟨.started, .multitouch, 0, false, 0, false⟩
    ⟨.set_mode, .sensor_unexpected_reset, 0⟩ rfl

/-- C3: when host status is Stopped, the channel callback returns
immediately: no frame is read, no effect occurs, the context is unchanged. -/
theorem C3_callback_discards_when_stopped (env : Env) (ipts : IptsContext)
    (rsp : IptsResponse) (h : ipts.status = IptsHostStatus.stopped) :
    ipts_receiver_callback env ipts rsp = (ipts, []) := by
  simp [ipts_receiver_callback, h]

/-- Witness for C3 at a concrete stopped context. -/
theorem C3_callback_discards_when_stopped_witness :
    ipts_receiver_callback
      ⟨0, 0, 0, 0, 0, 0, 0, 64⟩
      ⟨.stopped, .singletouch, 0, false, 5, true⟩
      ⟨.feedback, .success, 0⟩ =
      (⟨.stopped, .singletouch, 0, false, 5, true⟩, []) :=
  C3_callback_discards_when_stopped
    ⟨0, 0, 0, 0, 0, 0, 0, 64⟩
    ⟨.stopped, .singletouch, 0, false, 5, true⟩
    ⟨.feedback, .success, 0⟩ rfl

/-- C4: handling Set-Mem-Window unconditionally (for every environment and
context), in order, sets host status to Started, initializes the HID layer,
signals readiness, then issues exactly one ready-for-data command and
returns that command's result; and the in-order sequence Get-Device-Info,
Set-Mode, Set-Mem-Window drives host status to Started with readiness
released and exactly one ready-for-data command issued — again for every
environment, so no collaborator return code is assumed. -/
theorem C4_set_mem_window_and_bringup (env : Env) (ipts : IptsContext) :
    ipts_receiver_handle_set_mem_window env ipts =
      (env.cmd_ready_for_data_ret,
        { ipts with status := .started, on_device_ready := true },
        [.setStatus .started, .hidInit, .completeAll, .cmdReadyForData]) ∧
    (ipts_receiver_dispatch_list env ipts
        [⟨.get_device_info, .success, 0⟩, ⟨.set_mode, .success, 0⟩,
         ⟨.set_mem_window, .success, 0⟩]).1.status = IptsHostStatus.started ∧
    (ipts_receiver_dispatch_list env ipts
        [⟨.get_device_info, .success, 0⟩, ⟨.set_mode, .success, 0⟩,
         ⟨.set_mem_window, .success, 0⟩]).1.on_device_ready = true ∧
    countEff .cmdReadyForData
      (ipts_receiver_dispatch_list env ipts
        [⟨.get_device_info, .success, 0⟩, ⟨.set_mode, .success, 0⟩,
         ⟨.set_mem_window, .success, 0⟩]).2 = 1 := by
  refine ⟨rfl, ?_, ?_, ?_⟩ <;>
    rcases eq_or_ne env.resources_alloc_ret 0 with h0 | h0 <;>
    rcases eq_or_ne env.cmd_set_mode_ret 0 with h1 | h1 <;>
    rcases eq_or_ne env.cmd_set_mem_window_ret 0 with h2 | h2 <;>
    rcases eq_or_ne env.cmd_ready_for_data_ret 0 with h3 | h3 <;>
    rcases eq_or_ne env.control_stop_ret 0 with h4 | h4 <;>
    simp [ipts_receiver_dispatch_list, ipts_receiver_handle_response,
      ipts_receiver_handle_error, ipts_receiver_handle_get_device_info,
      ipts_receiver_handle_set_mode, ipts_receiver_handle_set_mem_window,
      countEff, h0, h1, h2, h3, h4]

/-- C5: the reset handler sets host status to Stopped first in both
branches (it is the head of the effect trace and the final state); with the
restart flag set it sleeps the fixed settle delay then calls control_start
(whose result it returns) with zero resource frees and zero HID teardowns;
with the flag clear it frees resources exactly once, tears down the HID
device exactly once, never calls start, and returns 0. -/
theorem C5_reset_handler_branches (env : Env) (ipts : IptsContext) :
    (ipts_receiver_handle_reset env ipts).2.1 =
      { ipts with status := .stopped } ∧
    (ipts_receiver_handle_reset env ipts).2.2.head? =
      some (.setStatus .stopped) ∧
    (ipts_receiver_handle_reset env ipts).1 =
      (if ipts.restart then env.control_start_ret else 0) ∧
    (ipts_receiver_handle_reset env ipts).2.2 =
      (if ipts.restart then [.setStatus .stopped, .msleep 1000, .controlStart]
       else [.setStatus .stopped, .resourcesFree, .hidFree]) ∧
    countEff .resourcesFree (ipts_receiver_handle_reset env ipts).2.2 =
      (if ipts.restart then 0 else 1) ∧
    countEff .hidFree (ipts_receiver_handle_reset env ipts).2.2 =
      (if ipts.restart then 0 else 1) ∧
    countEff .controlStart (ipts_receiver_handle_reset env ipts).2.2 =
      (if ipts.restart then 1 else 0) := by
  rcases hr : ipts.restart <;>
    simp [ipts_receiver_handle_reset, countEff, hr]

/-- C6: when resource allocation fails while handling Set-Mode, the handler
returns that error without issuing a set-mem-window command, and the
dispatcher invokes control_stop exactly once for that response. -/
theorem C6_set_mode_alloc_failure_stops (env : Env) (ipts : IptsContext)
    (rsp : IptsResponse) (h1 : rsp.code = IptsRsp.set_mode)
    (h2 : rsp.status = IptsStatus.success)
    (h3 : env.resources_alloc_ret ≠ 0) :
    (ipts_receiver_handle_set_mode env ipts).1 = env.resources_alloc_ret ∧
    countEff .cmdSetMemWindow
      (ipts_receiver_handle_set_mode env ipts).2.2 = 0 ∧
    countEff .cmdSetMemWindow
      (ipts_receiver_handle_response env ipts rsp).2 = 0 ∧
    countEff .controlStop
      (ipts_receiver_handle_response env ipts rsp).2 = 1 := by
  rcases rsp with ⟨code, status, payload⟩
  simp only at h1 h2
  subst h1; subst h2
  refine ⟨?_, ?_, ?_, ?_⟩ <;>
    simp [ipts_receiver_handle_response, ipts_receiver_handle_error,
      ipts_receiver_handle_set_mode, countEff, h3] <;>
    split <;> simp [countEff]

/-- Witness for C6 at a concrete failing allocation. -/
theorem C6_set_mode_alloc_failure_stops_witness :
    (ipts_receiver_handle_set_mode ⟨-12, 0, 0, 0, 0, 0, 0, 1⟩
        ⟨.starting, .multitouch, 0, false, 0, false⟩).1 =
      (⟨-12, 0, 0, 0, 0, 0, 0, 1⟩ : Env).resources_alloc_ret ∧
    countEff .cmdSetMemWindow
      (ipts_receiver_handle_set_mode ⟨-12, 0, 0, 0, 0, 0, 0, 1⟩
        ⟨.starting, .multitouch, 0, false, 0, false⟩).2.2 = 0 ∧
    countEff .cmdSetMemWindow
      (ipts_receiver_handle_response ⟨-12, 0, 0, 0, 0, 0, 0, 1⟩
        ⟨.starting, .multitouch, 0, false, 0, false⟩
        ⟨.set_mode, .success, 0⟩).2 = 0 ∧
    countEff .controlStop
      (ipts_receiver_handle_response ⟨-12, 0, 0, 0, 0, 0, 0, 1⟩
        ⟨.starting, .multitouch, 0, false, 0, false⟩
        ⟨.set_mode, .success, 0⟩).2 = 1 :=
  C6_set_mode_alloc_failure_stops ⟨-12, 0, 0, 0, 0, 0, 0, 1⟩
    ⟨.starting, .multitouch, 0, false, 0, false⟩
    ⟨.set_mode, .success, 0⟩ rfl rfl (by norm_num)

/-- C7: handling Feedback in singletouch mode issues exactly one
ready-for-data command (and returns its result); in any other mode it
issues zero commands, leaves the context unchanged and returns 0. -/
theorem C7_feedback_mode_branching (env : Env) (ipts : IptsContext)
    (rsp : IptsResponse) :
    (ipts_receiver_handle_feedback env ipts rsp).2.2 =
      (if ipts.mode = IptsMode.singletouch
        then [Effect.cmdReadyForData] else []) ∧
    countCmds (ipts_receiver_handle_feedback env ipts rsp).2.2 =
      (if ipts.mode = IptsMode.singletouch then 1 else 0) ∧
    countEff .cmdReadyForData (ipts_receiver_handle_feedback env ipts rsp).2.2 =
      (if ipts.mode = IptsMode.singletouch then 1 else 0) ∧
    (ipts_receiver_handle_feedback env ipts rsp).1 =
      (if ipts.mode = IptsMode.singletouch
        then env.cmd_ready_for_data_ret else 0) ∧
    (ipts_receiver_handle_feedback env ipts rsp).2.1 = ipts := by
  rcases hm : ipts.mode <;>
    simp [ipts_receiver_handle_feedback, countCmds, countEff, isCmdEffect, hm]

/-- One dispatch step on a successful Ready-For-Data response in
singletouch mode: the doorbell is incremented mod 2^32, nothing else
changes and no effect is emitted. -/
theorem rfd_step_singletouch (env : Env) (ipts : IptsContext)
    (hm : ipts.mode = IptsMode.singletouch) :
    ipts_receiver_handle_response env ipts ⟨.ready_for_data, .success, 0⟩ =
      ({ ipts with doorbell := (ipts.doorbell + 1) % 2 ^ 32 }, []) := by
  simp [ipts_receiver_handle_response, ipts_receiver_handle_error,
    ipts_receiver_handle_ready_for_data, hm]

/-- One dispatch step on a successful Ready-For-Data response in a
non-singletouch mode: the context is unchanged and no effect is emitted. -/
theorem rfd_step_other_mode (env : Env) (ipts : IptsContext)
    (hm : ipts.mode ≠ IptsMode.singletouch) :
    ipts_receiver_handle_response env ipts ⟨.ready_for_data, .success, 0⟩ =
      (ipts, []) := by
  simp [ipts_receiver_handle_response, ipts_receiver_handle_error,
    ipts_receiver_handle_ready_for_data, hm]

/-- C8: in singletouch mode, dispatching N consecutive successful
Ready-For-Data responses increments the doorbell register by exactly N,
wrapping modulo 2^32. -/
theorem C8_doorbell_monotonic (n : Nat) (env : Env) (ipts : IptsContext)
    (hm : ipts.mode = IptsMode.singletouch)
    (hd : ipts.doorbell < 2 ^ 32) :
    (ipts_receiver_dispatch_list env ipts
        (List.replicate n ⟨.ready_for_data, .success, 0⟩)).1.doorbell =
      (ipts.doorbell + n) % 2 ^ 32 := by
  induction n generalizing ipts with
  | zero =>
    simp only [ipts_receiver_dispatch_list, List.replicate]
    omega
  | succ n ih =>
    rw [List.replicate_succ]
    simp only [ipts_receiver_dispatch_list, rfd_step_singletouch env ipts hm]
    have hm' : ({ ipts with doorbell := (ipts.doorbell + 1) % 2 ^ 32 } :
        IptsContext).mode = IptsMode.singletouch := hm
    have hd' : ({ ipts with doorbell := (ipts.doorbell + 1) % 2 ^ 32 } :
        IptsContext).doorbell < 2 ^ 32 :=
      Nat.mod_lt _ (by norm_num)
    rw [ih _ hm' hd']
    simp only [IptsContext.doorbell]
    omega

/-- Witness for C8: two ready-for-data dispatches starting at the largest
u32 value wrap the doorbell around. -/
theorem C8_doorbell_monotonic_witness :
    (ipts_receiver_dispatch_list ⟨0, 0, 0, 0, 0, 0, 0, 1⟩
        ⟨.started, .singletouch, 0, false, 4294967295, true⟩
        (List.replicate 2 ⟨.ready_for_data, .success, 0⟩)).1.doorbell =
      (4294967295 + 2) % 2 ^ 32 :=
  C8_doorbell_monotonic 2 ⟨0, 0, 0, 0, 0, 0, 0, 1⟩
    ⟨.started, .singletouch, 0, false, 4294967295, true⟩ rfl (by norm_num)

/-- C9: in any non-singletouch mode, the Ready-For-Data handler returns 0
and leaves the context untouched, and dispatching any number of successful
Ready-For-Data responses leaves the whole context unchanged with an empty
effect trace. -/
theorem C9_rfd_idempotent_non_singletouch (n : Nat) (env : Env)
    (ipts : IptsContext) (hm : ipts.mode ≠ IptsMode.singletouch) :
    ipts_receiver_handle_ready_for_data ipts = (0, ipts, []) ∧
    ipts_receiver_dispatch_list env ipts
      (List.replicate n ⟨.ready_for_data, .success, 0⟩) = (ipts, []) := by
  refine ⟨by simp [ipts_receiver_handle_ready_for_data, hm], ?_⟩
  induction n with
  | zero => simp [ipts_receiver_dispatch_list]
  | succ n ih =>
    rw [List.replicate_succ]
    simp only [ipts_receiver_dispatch_list, rfd_step_other_mode env ipts hm]
    simpa using ih

/-- Witness for C9 at a concrete multitouch context and three responses. -/
theorem C9_rfd_idempotent_non_singletouch_witness :
    ipts_receiver_handle_ready_for_data
      ⟨.started, .multitouch, 7, false, 41, true⟩ =
      (0, ⟨.started, .multitouch, 7, false, 41, true⟩, []) ∧
    ipts_receiver_dispatch_list ⟨0, 0, 0, 0, 0, 0, 0, 1⟩
      ⟨.started, .multitouch, 7, false, 41, true⟩
      (List.replicate 3 ⟨.ready_for_data, .success, 0⟩) =
      (⟨.started, .multitouch, 7, false, 41, true⟩, []) :=
  C9_rfd_idempotent_non_singletouch 3 ⟨0, 0, 0, 0, 0, 0, 0, 1⟩
    ⟨.started, .multitouch, 7, false, 41, true⟩ (by simp)

/-- C10: in the reset handler's restart branch the control_start result is
returned to the dispatcher, so a failing restart-after-reset start call
makes the dispatcher invoke control_stop exactly once; on the
unsolicited-reset path a failing control_restart is only logged — the
trace is exactly log, restart, error log, with zero control_stop calls. -/
theorem C10_restart_failure_escalation (env : Env) (ipts : IptsContext)
    (rsp2 : IptsResponse) (h1 : ipts.restart = true)
    (h2 : env.control_start_ret ≠ 0)
    (h3 : rsp2.status = IptsStatus.sensor_unexpected_reset)
    (h4 : env.control_restart_ret ≠ 0) :
    (ipts_receiver_handle_reset env ipts).1 = env.control_start_ret ∧
    countEff .controlStop
      (ipts_receiver_handle_response env ipts
        ⟨.reset_sensor, .success, 0⟩).2 = 1 ∧
    (ipts_receiver_handle_response env ipts rsp2).2 =
      [.logInfo, .controlRestart, .logErr] ∧
    countEff .controlStop (ipts_receiver_handle_response env ipts rsp2).2 = 0 := by
  refine ⟨?_, ?_, ?_, ?_⟩ <;>
    simp [ipts_receiver_handle_response, ipts_receiver_handle_error,
      ipts_receiver_handle_reset, countEff, h1, h2, h3, h4] <;>
    split <;> simp [countEff]

/-- Witness for C10 at a concrete environment where both start and restart
fail. -/
theorem C10_restart_failure_escalation_witness :
    (ipts_receiver_handle_reset ⟨0, 0, 0, 0, -5, 0, -5, 1⟩
        ⟨.started, .multitouch, 0, true, 0, true⟩).1 =
      (⟨0, 0, 0, 0, -5, 0, -5, 1⟩ : Env).control_start_ret ∧
    countEff .controlStop
      (ipts_receiver_handle_response ⟨0, 0, 0, 0, -5, 0, -5, 1⟩
        ⟨.started, .multitouch, 0, true, 0, true⟩
        ⟨.reset_sensor, .success, 0⟩).2 = 1 ∧
    (ipts_receiver_handle_response ⟨0, 0, 0, 0, -5, 0, -5, 1⟩
        ⟨.started, .multitouch, 0, true, 0, true⟩
        ⟨.get_device_info, .sensor_unexpected_reset, 0⟩).2 =
      [.logInfo, .controlRestart, .logErr] ∧
    countEff .controlStop
      (ipts_receiver_handle_response ⟨0, 0, 0, 0, -5, 0, -5, 1⟩
        ⟨.started, .multitouch, 0, true, 0, true⟩
        ⟨.get_device_info, .sensor_unexpected_reset, 0⟩).2 = 0 :=
  C10_restart_failure_escalation ⟨0, 0, 0, 0, -5, 0, -5, 1⟩
    ⟨.started, .multitouch, 0, true, 0, true⟩
    ⟨.get_device_info, .sensor_unexpected_reset, 0⟩
    rfl (by norm_num) rfl (by norm_num)
